import Mathlib

/-!
Shallow embedding of the quota-aware image-generation backend
(codenex-images-api): the image post-processing pipeline
(src/utils/imageProcessing), the prompt composer and Gemini service wrapper
(src/services/geminiService), the user quota/credential model
(src/models/User, src/controllers/userController), the generation
controllers (src/controllers/generationController) and the daily reset job
(src/services/cronService).  External effects (sharp decoding/encoding, the
provider, Cloudinary upload) are passed in as explicit function parameters;
mongoose documents become plain records and the wall clock becomes an
explicit calendar-day index.
-/

namespace Codenex

/-! ## Image post-processing (src/utils/imageProcessing.ts) -/

/-- Decoded raster image: raw channel samples in row-major order, as
produced by sharp raw() in removeWhiteBorders. -/
structure RawImage where
  width : Nat
  height : Nat
  channels : Nat
  data : List Nat
deriving DecidableEq, Repr

/-- Running bounding box of the pixel scan: minX, minY, maxX, maxY. -/
structure Bounds where
  minX : Nat
  minY : Nat
  maxX : Nat
  maxY : Nat
deriving DecidableEq, Repr

/-- Sample read data[idx] with the bounded index used by the scan loop;
out-of-range reads return 0 (never hit for well-formed data). -/
def sample (img : RawImage) (x y c : Nat) : Nat :=
  img.data.getD ((y * img.width + x) * img.channels + c) 0

/-- Condition of the scan loop: pixel (x, y) has r, g or b strictly below
the threshold. -/
def pixelDark (img : RawImage) (threshold x y : Nat) : Bool :=
  decide (sample img x y 0 < threshold) ||
  decide (sample img x y 1 < threshold) ||
  decide (sample img x y 2 < threshold)

/-- Body of the double scan loop: extend the bounding box when the pixel is
below the threshold. -/
def scanUpdate (img : RawImage) (threshold : Nat) (b : Bounds) (x y : Nat) :
    Bounds :=
  if pixelDark img threshold x y then
    ⟨min b.minX x, min b.minY y, max b.maxX x, max b.maxY y⟩
  else b

/-- Row-major pixel scan from removeWhiteBorders: minX, minY start at
width, height and maxX, maxY start at 0. -/
def scanBounds (img : RawImage) (threshold : Nat) : Bounds :=
  (List.range img.height).foldl
    (fun b y =>
      (List.range img.width).foldl (fun b x => scanUpdate img threshold b x y) b)
    ⟨img.width, img.height, 0, 0⟩

/-- Whether some scanned pixel has a sample strictly below the threshold. -/
def anyPixelBelow (img : RawImage) (threshold : Nat) : Bool :=
  (List.range img.height).any fun y =>
    (List.range img.width).any fun x => pixelDark img threshold x y

/-- Border pixel count of the detected box:
minX + (width - maxX - 1) + minY + (height - maxY - 1). -/
def borderPixels (img : RawImage) (b : Bounds) : Nat :=
  b.minX + (img.width - b.maxX - 1) + b.minY + (img.height - b.maxY - 1)

/-- Perimeter unit (width + height) * 2 used as the denominator of the
border percentage. -/
def totalPixels (img : RawImage) : Nat :=
  (img.width + img.height) * 2

/-- Exact form of the float test (borderPixels / totalPixels) * 100 < 1. -/
def borderMinimal (img : RawImage) (b : Bounds) : Bool :=
  decide (borderPixels img b * 100 < totalPixels img)

/-- removeWhiteBorders: decode is the sharp metadata plus raw-buffer step
(none models a missing dimension or a thrown decode error), encodeCrop is
the sharp extract plus toBuffer step taking left, top, width, height (none
models a thrown encode error).  Any failure returns the original base64
string unchanged. -/
def removeWhiteBorders (decode : String → Option RawImage)
    (encodeCrop : String → Nat → Nat → Nat → Nat → Option String)
    (threshold : Nat) (base64Image : String) : String :=
  match decode base64Image with
  | none => base64Image
  | some img =>
    let b := scanBounds img threshold
    if b.maxX ≤ b.minX ∨ b.maxY ≤ b.minY then
      base64Image
    else if borderMinimal img b then
      base64Image
    else
      match encodeCrop base64Image b.minX b.minY (b.maxX - b.minX + 1)
          (b.maxY - b.minY + 1) with
      | none => base64Image
      | some cropped => cropped

/-- ensureDimensions: resize is the sharp resize-cover-center plus encode
step; on failure the original base64 string is returned. -/
def ensureDimensions (resize : String → Nat → Nat → Option String)
    (base64Image : String) (targetWidth targetHeight : Nat) : String :=
  match resize base64Image targetWidth targetHeight with
  | none => base64Image
  | some resized => resized

/-! ## Prompt composition (geminiService.enhancePrompt / buildEditPrompt) -/

/-- Generation settings carried by a request; temperature is an exact
rational standing for the finite decimal the request supplies. -/
structure Settings where
  width : Option Nat := none
  height : Option Nat := none
  temperature : Option ℚ := none
  seed : Option Nat := none
  isEdit : Bool := false
  originalImage : Option String := none
  maskImage : Option String := none
  referenceImages : List String := []
deriving DecidableEq, Repr

/-- Recursive Euclidean gcd exactly as written inline in enhancePrompt:
gcd a b = if b is 0 then a else gcd b (a mod b). -/
def gcdE (a b : Nat) : Nat :=
  if h : b = 0 then a else gcdE b (a % b)
termination_by b
decreasing_by exact Nat.mod_lt a (Nat.pos_of_ne_zero h)

/-- Creative-tier phrasing selected by temperature. -/
def creativeGuidance (t? : Option ℚ) : String :=
  match t? with
  | none => ""
  | some t =>
    if t ≤ 1/2 then
      "Create a precise, realistic, and highly detailed image with photographic accuracy."
    else if t ≤ 1 then
      "Create a balanced image with natural style and moderate artistic interpretation."
    else if t ≤ 3/2 then
      "Create an artistic and creative image with stylized elements and imaginative details."
    else
      "Create a highly imaginative, surreal, and experimental image with bold artistic choices."

/-- Seed folded into the prompt as a style hint; a zero seed is falsy in
the source and produces no hint. -/
def seedGuidance (seed? : Option Nat) : String :=
  match seed? with
  | none => ""
  | some s => if s = 0 then "" else "Style reference: " ++ toString s

/-- Human label for the six recognized simplified ratios, empty string
otherwise. -/
def ratioFormat (ratio : String) : String :=
  if ratio = "16:9" then "widescreen/cinematic"
  else if ratio = "9:16" then "vertical/mobile"
  else if ratio = "4:3" then "standard/classic"
  else if ratio = "3:4" then "portrait"
  else if ratio = "21:9" then "ultra-wide/cinematic"
  else if ratio = "1:1" then "square/Instagram"
  else ""

/-- Simplified ratio string built from the gcd of width and height. -/
def ratioOf (w h : Nat) : String :=
  let d := gcdE w h
  toString (w / d) ++ ":" ++ toString (h / d)

/-- Branch of enhancePrompt taken when no positive width and height pair is
supplied: apply creative and seed guidance around the raw prompt. -/
def defaultEnhance (cg sg prompt : String) : String :=
  if cg ≠ "" ∨ sg ≠ "" then
    (if cg = "" then "" else cg ++ "\n\n") ++ prompt
      ++ (if sg = "" then "" else "\n\n" ++ sg)
  else prompt

/-- enhancePrompt: when width and height are both supplied and nonzero
(JS truthiness), wrap the prompt in the dimension directive template with
the simplified ratio, otherwise fall back to guidance-only enhancement. -/
def enhancePrompt (prompt : String) (s : Settings) : String :=
  let cg := creativeGuidance s.temperature
  let sg := seedGuidance s.seed
  match s.width, s.height with
  | some w, some h =>
    if w ≠ 0 ∧ h ≠ 0 then
      let ratio := ratioOf w h
      let fmt := ratioFormat ratio
      "[" ++ ratio ++ " " ++ (if fmt = "" then "aspect ratio" else fmt)
        ++ ", " ++ toString w ++ "×" ++ toString h
        ++ "px, full frame, no borders]\n\n"
        ++ (if cg = "" then "" else cg ++ "\n\n") ++ prompt
        ++ "\n\nCRITICAL REQUIREMENTS:\n• The image MUST be exactly "
        ++ toString w ++ "×" ++ toString h
        ++ " pixels\n• The image MUST fill the entire " ++ ratio
        ++ " frame edge-to-edge\n• NO white borders, NO black bars, NO letterboxing, NO empty space\n• Content should extend to all edges"
        ++ (if sg = "" then "" else "\n• " ++ sg)
    else defaultEnhance cg sg prompt
  | _, _ => defaultEnhance cg sg prompt

/-- buildEditPrompt for edit requests, with the mask restriction clause. -/
def buildEditPrompt (instruction : String) (s : Settings) : String :=
  let styleGuidance :=
    match s.temperature with
    | none => "photorealistic, high quality"
    | some t =>
      if t ≤ 1/2 then "photorealistic, highly detailed"
      else if t ≤ 1 then "realistic, natural"
      else if t ≤ 3/2 then "artistic, creative"
      else "experimental, imaginative"
  "Edit the image: " ++ instruction ++ ", maintain " ++ styleGuidance
    ++ " quality, seamless integration with original"
    ++ (if s.maskImage ≠ none then
        ", edit only the masked areas (white pixels), preserve unmasked regions exactly"
      else "")
    ++ (match s.seed with
      | none => ""
      | some sd => if sd = 0 then "" else ", consistent style seed: " ++ toString sd)

/-- Substring containment stated over the underlying character lists. -/
def strContains (s r : String) : Prop :=
  ∃ p q : List Char, s.data = p ++ r.data ++ q

/-- Whitespace trim of the JS trim() calls, written structurally over the
character list. -/
def jsTrim (s : String) : String :=
  ⟨((s.data.dropWhile Char.isWhitespace).reverse.dropWhile
    Char.isWhitespace).reverse⟩

/-! ## User model and quota ledger (src/models/User.ts) -/

/-- Stored encrypted credential.  AES-CBC encryption of a plaintext is kept
abstract: a well-formed ciphertext decrypts back to its plaintext, while a
malformed value (wrong iv-colon-hex shape, or a value the decipher rejects)
makes getDecryptedApiKey return null. -/
inductive Cipher where
  | enc (plaintext : String)
  | malformed
deriving DecidableEq, Repr

/-- Persisted user document; lastGenerationDate is reduced to the calendar
day index that setHours(0,0,0,0) projects a Date to, since the schema
methods only ever compare day starts. -/
structure User where
  auth0Id : String
  email : String
  geminiApiKey : Option Cipher := none
  hasApiKey : Bool := false
  generationCount : Nat := 0
  dailyGenerationCount : Nat := 0
  lastGenerationDate : Option Nat := none
deriving DecidableEq, Repr

/-- getDecryptedApiKey: null stored key gives null; malformed ciphertext is
caught and gives null; otherwise the decrypted plaintext. -/
def getDecryptedApiKey (stored : Option Cipher) : Option String :=
  match stored with
  | none => none
  | some .malformed => none
  | some (.enc plaintext) => some plaintext

/-- setApiKey followed by the save hook: the controller only calls it with
a truthy key, so the hook encrypts and sets hasApiKey to true. -/
def setApiKey (apiKey : String) (u : User) : User :=
  { u with geminiApiKey := some (.enc apiKey), hasApiKey := true }

/-- removeApiKey followed by the save hook: the null key makes the hook set
hasApiKey to false. -/
def removeApiKey (u : User) : User :=
  { u with geminiApiKey := none, hasApiKey := false }

/-- incrementGeneration: reset the daily count to 1 on a day rollover (or
no previous date), add 1 otherwise; always bump the lifetime count and
stamp the date with today. -/
def incrementGeneration (today : Nat) (u : User) : User :=
  let fresh := match u.lastGenerationDate with
    | none => false
    | some d => d = today
  { u with
    dailyGenerationCount := if fresh then u.dailyGenerationCount + 1 else 1,
    generationCount := u.generationCount + 1,
    lastGenerationDate := some today }

/-- getTodayGenerations: 0 unless the last generation date falls on today,
else the stored daily count. -/
def getTodayGenerations (today : Nat) (u : User) : Nat :=
  match u.lastGenerationDate with
  | none => 0
  | some d => if d = today then u.dailyGenerationCount else 0

/-- Per-user effect of the daily reset updateMany: only users without an
own key get their daily count zeroed and date cleared. -/
def resetUser (u : User) : User :=
  if u.hasApiKey then u
  else { u with dailyGenerationCount := 0, lastGenerationDate := none }

/-- resetAll: the bulk update over the whole user collection, used both by
the scheduled job and the manual trigger. -/
def resetAll (users : List User) : List User :=
  users.map resetUser

/-- checkCanGenerate (userController) for an existing user: returns the
allowed flag and the possibly demoted saved user.  A user whose flag is set
but whose key decrypts to null or to whitespace is demoted (only the flag
is cleared; the stored ciphertext is not modified, so the save hook leaves
it in place) and then goes through the free-tier daily check. -/
def checkCanGenerate (today : Nat) (u : User) : Bool × User :=
  if u.hasApiKey then
    match getDecryptedApiKey u.geminiApiKey with
    | some apiKey =>
      if jsTrim apiKey ≠ "" then (true, u)
      else
        let demoted : User := { u with hasApiKey := false }
        (decide (getTodayGenerations today demoted < 2), demoted)
    | none =>
      let demoted : User := { u with hasApiKey := false }
      (decide (getTodayGenerations today demoted < 2), demoted)
  else (decide (getTodayGenerations today u < 2), u)

/-! ## Gemini service and generation controllers
(src/services/geminiService.ts, src/controllers/generationController.ts) -/

/-- Which API key actually backs the provider call. -/
inductive UsedKey where
  | userKey (k : String)
  | sharedDefault
deriving DecidableEq, Repr

/-- Abstract provider response for generate and edit calls: inline images,
a 400-class invalid-key rejection, or any other failure whose error
message may or may not contain the text "API key". -/
inductive ProviderOutcome where
  | ok (images : List String)
  | invalidKey
  | failure (msgMentionsApiKey : Bool)
deriving DecidableEq, Repr

/-- Error kinds surfaced by the service layer.  noApiKeyAvailable keeps the
403 message about adding an API key, invalidApiKey the 400 message
"Invalid API key", noImages the no-output 500, and upstream any other
propagated message together with whether it contains "API key". -/
inductive GenError where
  | noApiKeyAvailable
  | invalidApiKey
  | noImages
  | upstream (msgMentionsApiKey : Bool)
deriving DecidableEq, Repr

/-- Whether the error message contains the text "API key", which is the
only thing the controller catch blocks inspect. -/
def mentionsApiKey : GenError → Bool
  | .noApiKeyAvailable => true
  | .invalidApiKey => true
  | .noImages => false
  | .upstream b => b

/-- getGenAI: a user key that is non-null and does not trim to empty wins;
otherwise the shared default key when configured; otherwise the 403. -/
def getGenAI (defaultApiKey customApiKey : Option String) :
    Except GenError UsedKey :=
  match customApiKey with
  | some k =>
    if jsTrim k ≠ "" then .ok (.userKey k)
    else match defaultApiKey with
      | some _ => .ok .sharedDefault
      | none => .error .noApiKeyAvailable
  | none =>
    match defaultApiKey with
    | some _ => .ok .sharedDefault
    | none => .error .noApiKeyAvailable

/-- Per-image post-processing applied by the service on success: border
removal, then dimension enforcement when width and height are supplied and
nonzero. -/
def postProcess (sharpDecode : String → Option RawImage)
    (sharpCrop : String → Nat → Nat → Nat → Nat → Option String)
    (sharpResize : String → Nat → Nat → Option String)
    (s : Settings) (image : String) : String :=
  let trimmed := removeWhiteBorders sharpDecode sharpCrop 240 image
  match s.width, s.height with
  | some w, some h =>
    if w ≠ 0 ∧ h ≠ 0 then ensureDimensions sharpResize trimmed w h
    else trimmed
  | _, _ => trimmed

/-- geminiService.generateImage: resolve the key, call the provider with
the enhanced prompt, fail on empty output, and post-process each returned
image (each image falls back to its original bytes on processing failure).
The second component records the key a provider call was made with, none
when no call happened. -/
def svcGenerate (defaultApiKey : Option String)
    (provider : String → UsedKey → ProviderOutcome)
    (sharpDecode : String → Option RawImage)
    (sharpCrop : String → Nat → Nat → Nat → Nat → Option String)
    (sharpResize : String → Nat → Nat → Option String)
    (prompt : String) (s : Settings) (customApiKey : Option String) :
    Except GenError (List String) × Option UsedKey :=
  match getGenAI defaultApiKey customApiKey with
  | .error e => (.error e, none)
  | .ok key =>
    match provider (enhancePrompt prompt s) key with
    | .ok images =>
      if images.isEmpty then (.error .noImages, some key)
      else (.ok (images.map (postProcess sharpDecode sharpCrop sharpResize s)),
        some key)
    | .invalidKey => (.error .invalidApiKey, some key)
    | .failure b => (.error (.upstream b), some key)

/-- geminiService.editImage: like generate but with the edit prompt, and
its catch block rethrows every provider error generically, so a 400-class
invalid-key rejection propagates with its upstream message (which contains
"API key not valid"). -/
def svcEdit (defaultApiKey : Option String)
    (provider : String → UsedKey → ProviderOutcome)
    (sharpDecode : String → Option RawImage)
    (sharpCrop : String → Nat → Nat → Nat → Nat → Option String)
    (sharpResize : String → Nat → Nat → Option String)
    (instruction : String) (s : Settings) (customApiKey : Option String) :
    Except GenError (List String) × Option UsedKey :=
  match getGenAI defaultApiKey customApiKey with
  | .error e => (.error e, none)
  | .ok key =>
    match provider (buildEditPrompt instruction s) key with
    | .ok images =>
      if images.isEmpty then (.error .noImages, some key)
      else (.ok (images.map (postProcess sharpDecode sharpCrop sharpResize s)),
        some key)
    | .invalidKey => (.error (.upstream true), some key)
    | .failure b => (.error (.upstream b), some key)

/-- Persisted image reference: Cloudinary URL when configured and the
upload succeeds, inline base64 data otherwise. -/
def persistImage (cloudinaryConfigured : Bool)
    (upload : String → Option String) (image : String) :
    Option String × Option String :=
  if cloudinaryConfigured then
    match upload image with
    | some url => (some url, none)
    | none => (none, some image)
  else (none, some image)

/-- Fields of the persisted GenerationRecord the claims are about. -/
structure GenRecord where
  prompt : String
  imageUrl : Option String := none
  imageData : Option String := none
  isEdit : Bool := false
  status : String := "completed"
deriving DecidableEq, Repr

/-- Terminal outcome of a generate or edit request. -/
inductive GenResult where
  | notFound
  | quotaExceeded
  | completed (images : List String) (genRec : GenRecord)
  | invalidKeyCleared
  | failed (e : GenError)
deriving DecidableEq, Repr

/-- Result of a controller run: the response, the final persisted user
state, and the key a provider call was made with (none when no call). -/
structure CtrlOut where
  result : GenResult
  user : Option User
  providerKey : Option UsedKey
deriving DecidableEq, Repr

/-- generateImage controller: load user, free-tier daily check, decrypt
the own key when the flag is set, call the service (edit variant when
isEdit with a truthy original image), persist the first image, increment
the quota for shared-key users, and on an error mentioning "API key" for a
flagged user clear the stored key. -/
def generateImageCtrl (defaultApiKey : Option String)
    (provider : String → UsedKey → ProviderOutcome)
    (sharpDecode : String → Option RawImage)
    (sharpCrop : String → Nat → Nat → Nat → Nat → Option String)
    (sharpResize : String → Nat → Nat → Option String)
    (cloudinaryConfigured : Bool) (upload : String → Option String)
    (today : Nat) (prompt : String) (settings : Settings)
    (user? : Option User) : CtrlOut :=
  match user? with
  | none => ⟨.notFound, none, none⟩
  | some u =>
    if u.hasApiKey = false ∧ 2 ≤ getTodayGenerations today u then
      ⟨.quotaExceeded, some u, none⟩
    else
      let userApiKey : Option String :=
        if u.hasApiKey then getDecryptedApiKey u.geminiApiKey else none
      let svcOut :=
        if settings.isEdit = true ∧ settings.originalImage.getD "" ≠ "" then
          svcEdit defaultApiKey provider sharpDecode sharpCrop sharpResize
            prompt settings userApiKey
        else
          svcGenerate defaultApiKey provider sharpDecode sharpCrop sharpResize
            prompt settings userApiKey
      match svcOut with
      | (.ok images, key?) =>
        let persisted := persistImage cloudinaryConfigured upload
          (images.headD "")
        let genRec : GenRecord :=
          { prompt := prompt, imageUrl := persisted.1,
            imageData := persisted.2, isEdit := settings.isEdit,
            status := "completed" }
        let u' := if u.hasApiKey then u else incrementGeneration today u
        ⟨.completed images genRec, some u', key?⟩
      | (.error e, key?) =>
        if u.hasApiKey = true ∧ mentionsApiKey e = true then
          ⟨.invalidKeyCleared, some (removeApiKey u), key?⟩
        else ⟨.failed e, some u, key?⟩

/-- editImage controller: same shape as generate, always through the edit
service, record flagged as an edit. -/
def editImageCtrl (defaultApiKey : Option String)
    (provider : String → UsedKey → ProviderOutcome)
    (sharpDecode : String → Option RawImage)
    (sharpCrop : String → Nat → Nat → Nat → Nat → Option String)
    (sharpResize : String → Nat → Nat → Option String)
    (cloudinaryConfigured : Bool) (upload : String → Option String)
    (today : Nat) (instruction : String) (maskImage : Option String)
    (referenceImages : List String) (temperature : Option ℚ)
    (seed : Option Nat) (user? : Option User) : CtrlOut :=
  match user? with
  | none => ⟨.notFound, none, none⟩
  | some u =>
    if u.hasApiKey = false ∧ 2 ≤ getTodayGenerations today u then
      ⟨.quotaExceeded, some u, none⟩
    else
      let userApiKey : Option String :=
        if u.hasApiKey then getDecryptedApiKey u.geminiApiKey else none
      let editSettings : Settings :=
        { maskImage := maskImage, referenceImages := referenceImages,
          temperature := temperature, seed := seed }
      match svcEdit defaultApiKey provider sharpDecode sharpCrop sharpResize
          instruction editSettings userApiKey with
      | (.ok images, key?) =>
        let persisted := persistImage cloudinaryConfigured upload
          (images.headD "")
        let genRec : GenRecord :=
          { prompt := instruction, imageUrl := persisted.1,
            imageData := persisted.2, isEdit := true, status := "completed" }
        let u' := if u.hasApiKey then u else incrementGeneration today u
        ⟨.completed images genRec, some u', key?⟩
      | (.error e, key?) =>
        if u.hasApiKey = true ∧ mentionsApiKey e = true then
          ⟨.invalidKeyCleared, some (removeApiKey u), key?⟩
        else ⟨.failed e, some u, key?⟩

/-- Abstract provider response for a segmentation call: a text part that
does or does not parse as JSON, an invalid-key rejection, or another
failure. -/
inductive SegOutcome where
  | text (parsesAsJson : Bool)
  | invalidKey
  | failure (msgMentionsApiKey : Bool)
deriving DecidableEq, Repr

/-- geminiService.segmentImage: resolve the key, call the provider, parse
the JSON text; every error is rethrown generically with its message. -/
def svcSegment (defaultApiKey : Option String)
    (sprovider : UsedKey → SegOutcome) (customApiKey : Option String) :
    Except GenError Unit × Option UsedKey :=
  match getGenAI defaultApiKey customApiKey with
  | .error e => (.error e, none)
  | .ok key =>
    match sprovider key with
    | .text true => (.ok (), some key)
    | .text false => (.error (.upstream false), some key)
    | .invalidKey => (.error (.upstream true), some key)
    | .failure b => (.error (.upstream b), some key)

/-- Terminal outcome of a segment request. -/
inductive SegResult where
  | notFound
  | ok
  | failed (e : GenError)
deriving DecidableEq, Repr

/-- segmentImage controller: load user, decrypt the own key when flagged,
call the service, rethrow errors; there is no daily-limit check, no quota
increment and no key clearing on this path. -/
def segmentImageCtrl (defaultApiKey : Option String)
    (sprovider : UsedKey → SegOutcome) (user? : Option User) :
    SegResult × Option User × Option UsedKey :=
  match user? with
  | none => (.notFound, none, none)
  | some u =>
    let userApiKey : Option String :=
      if u.hasApiKey then getDecryptedApiKey u.geminiApiKey else none
    match svcSegment defaultApiKey sprovider userApiKey with
    | (.ok _, key?) => (.ok, some u, key?)
    | (.error e, key?) => (.failed e, some u, key?)

/-! ## Concrete fixtures used by counterexamples and witnesses -/

/-- Test image: 3 by 3, 3 channels, all white except the single center
pixel (1, 1). -/
def raw3 : RawImage :=
  ⟨3, 3, 3,
    [255, 255, 255, 255, 255, 255, 255, 255, 255,
     255, 255, 255, 0, 0, 0, 255, 255, 255,
     255, 255, 255, 255, 255, 255, 255, 255, 255]⟩

/-- Test image: 4 by 4, 3 channels, dark 2 by 2 block at columns 1 to 2,
rows 1 to 2 — a genuine crop case. -/
def raw4 : RawImage :=
  ⟨4, 4, 3,
    [255, 255, 255, 255, 255, 255, 255, 255, 255, 255, 255, 255,
     255, 255, 255, 0, 0, 0, 0, 0, 0, 255, 255, 255,
     255, 255, 255, 0, 0, 0, 0, 0, 0, 255, 255, 255,
     255, 255, 255, 255, 255, 255, 255, 255, 255, 255, 255, 255]⟩

/-- User with the flag set but a malformed stored ciphertext. -/
def uDemo : User :=
  ⟨"user-1", "u1@example.com", some .malformed, true, 0, 0, none⟩

/-- User with a valid own credential and lifetime count 5. -/
def uOwn : User :=
  ⟨"own-1", "own@example.com", some (.enc "GOODKEY"), true, 5, 0, none⟩

/-- Free-tier user who already made 2 generations today (day 0). -/
def uLim : User :=
  ⟨"lim-1", "lim@example.com", none, false, 9, 2, some 0⟩

/-- Free-tier user with 1 generation today (day 0) and lifetime count 5. -/
def uFree : User :=
  ⟨"free-1", "free@example.com", none, false, 5, 1, some 0⟩

/-! ## Helper lemmas -/

/-- A fold leaves its accumulator unchanged when every step fixes it. -/
theorem list_foldl_fixed {α β : Type} (f : β → α → β) (b : β) :
    ∀ l : List α, (∀ a ∈ l, f b a = b) → l.foldl f b = b := by
  intro l
  induction l with
  | nil => intro _; rfl
  | cons a t ih =>
    intro h
    have ha := h a (List.mem_cons_self a t)
    simp only [List.foldl_cons, ha]
    exact ih fun x hx => h x (List.mem_cons_of_mem a hx)

/-- When no pixel is below the threshold, the scan keeps its initial
bounds: minX = width, minY = height, maxX = maxY = 0. -/
theorem scanBounds_of_noDark (img : RawImage) (threshold : Nat)
    (h : anyPixelBelow img threshold = false) :
    scanBounds img threshold = ⟨img.width, img.height, 0, 0⟩ := by
  have hall : ∀ y ∈ List.range img.height, ∀ x ∈ List.range img.width,
      pixelDark img threshold x y = false := by
    intro y hy x hx
    by_contra hbx
    have : anyPixelBelow img threshold = true := by
      unfold anyPixelBelow
      rw [List.any_eq_true]
      exact ⟨y, hy, by
        rw [List.any_eq_true]
        exact ⟨x, hx, by simpa using hbx⟩⟩
    rw [h] at this
    exact Bool.false_ne_true this
  unfold scanBounds
  apply list_foldl_fixed
  intro y hy
  apply list_foldl_fixed
  intro x hx
  unfold scanUpdate
  rw [hall y hy x hx]
  simp

/-- String append acts as list append on the underlying data. -/
theorem strData_append (a b : String) : (a ++ b).data = a.data ++ b.data :=
  rfl

/-- Containment is reflexive. -/
theorem strContains_self (r : String) : strContains r r :=
  ⟨[], [], by simp⟩

/-- Containment is preserved by appending on the left. -/
theorem strContains_left (t : String) {s r : String}
    (h : strContains s r) : strContains (t ++ s) r := by
  obtain ⟨p, q, hpq⟩ := h
  exact ⟨t.data ++ p, q, by rw [strData_append, hpq]; simp⟩

/-- Containment is preserved by appending on the right. -/
theorem strContains_right (t : String) {s r : String}
    (h : strContains s r) : strContains (s ++ t) r := by
  obtain ⟨p, q, hpq⟩ := h
  exact ⟨p, q ++ t.data, by rw [strData_append, hpq]; simp⟩

/-- The inline recursive gcd agrees with Nat.gcd. -/
theorem gcdE_eq (a b : Nat) : gcdE a b = Nat.gcd a b := by
  induction b using Nat.strong_induction_on generalizing a with
  | _ b ih =>
    rw [gcdE]
    split
    · rename_i h
      subst h
      simp
    · rename_i h
      rw [ih (a % b) (Nat.mod_lt _ (Nat.pos_of_ne_zero h))]
      rw [Nat.gcd_comm b (a % b), ← Nat.gcd_rec b a, Nat.gcd_comm b a]

/-- The ratio string is the pair reduced by Nat.gcd. -/
theorem ratioOf_eq (w h : Nat) :
    ratioOf w h =
      toString (w / Nat.gcd w h) ++ ":" ++ toString (h / Nat.gcd w h) := by
  unfold ratioOf
  rw [gcdE_eq]

/-- Success path of the generate controller: with the quota passed, a
resolved key and a nonempty provider result, the controller returns the
processed images, a record built from the first processed image, the
incremented (shared) or untouched (own-key) user, and the key used. -/
theorem generateImageCtrl_success_spec
    (defaultApiKey : Option String)
    (provider : String → UsedKey → ProviderOutcome)
    (decode : String → Option RawImage)
    (crop : String → Nat → Nat → Nat → Nat → Option String)
    (resize : String → Nat → Nat → Option String)
    (cloud : Bool) (upload : String → Option String)
    (today : Nat) (prompt : String) (s : Settings) (u : User)
    (key : UsedKey) (l : List String)
    (hedit : s.isEdit = false)
    (hq : u.hasApiKey = true ∨ getTodayGenerations today u < 2)
    (hkey : getGenAI defaultApiKey
      (if u.hasApiKey then getDecryptedApiKey u.geminiApiKey else none) =
      .ok key)
    (hprov : provider (enhancePrompt prompt s) key = .ok l)
    (hne : l ≠ []) :
    generateImageCtrl defaultApiKey provider decode crop resize cloud upload
      today prompt s (some u) =
      ⟨.completed (l.map (postProcess decode crop resize s))
          ⟨prompt,
            (persistImage cloud upload
              ((l.map (postProcess decode crop resize s)).headD "")).1,
            (persistImage cloud upload
              ((l.map (postProcess decode crop resize s)).headD "")).2,
            s.isEdit, "completed"⟩,
        some (if u.hasApiKey then u else incrementGeneration today u),
        some key⟩ := by
  have hqn : ¬ (u.hasApiKey = false ∧ 2 ≤ getTodayGenerations today u) := by
    rcases hq with h | h
    · simp [h]
    · rintro ⟨_, h2⟩; omega
  unfold generateImageCtrl
  simp only []
  rw [if_neg hqn]
  rw [if_neg (by simp [hedit])]
  unfold svcGenerate
  rw [hkey]
  simp only []
  rw [hprov]
  simp only []
  rw [if_neg (by simpa [List.isEmpty_iff] using hne)]

/-- Success path of the edit controller, analogous to the generate one;
the service settings are the record the controller builds from the request
fields. -/
theorem editImageCtrl_success_spec
    (defaultApiKey : Option String)
    (provider : String → UsedKey → ProviderOutcome)
    (decode : String → Option RawImage)
    (crop : String → Nat → Nat → Nat → Nat → Option String)
    (resize : String → Nat → Nat → Option String)
    (cloud : Bool) (upload : String → Option String)
    (today : Nat) (instruction : String) (maskImage : Option String)
    (referenceImages : List String) (temperature : Option ℚ)
    (seed : Option Nat) (u : User) (key : UsedKey) (l : List String)
    (hq : u.hasApiKey = true ∨ getTodayGenerations today u < 2)
    (hkey : getGenAI defaultApiKey
      (if u.hasApiKey then getDecryptedApiKey u.geminiApiKey else none) =
      .ok key)
    (hprov : provider
      (buildEditPrompt instruction
        { maskImage := maskImage, referenceImages := referenceImages,
          temperature := temperature, seed := seed }) key = .ok l)
    (hne : l ≠ []) :
    editImageCtrl defaultApiKey provider decode crop resize cloud upload
      today instruction maskImage referenceImages temperature seed
      (some u) =
      ⟨.completed
          (l.map (postProcess decode crop resize
            { maskImage := maskImage, referenceImages := referenceImages,
              temperature := temperature, seed := seed }))
          ⟨instruction,
            (persistImage cloud upload
              ((l.map (postProcess decode crop resize
                { maskImage := maskImage,
                  referenceImages := referenceImages,
                  temperature := temperature, seed := seed })).headD "")).1,
            (persistImage cloud upload
              ((l.map (postProcess decode crop resize
                { maskImage := maskImage,
                  referenceImages := referenceImages,
                  temperature := temperature, seed := seed })).headD "")).2,
            true, "completed"⟩,
        some (if u.hasApiKey then u else incrementGeneration today u),
        some key⟩ := by
  have hqn : ¬ (u.hasApiKey = false ∧ 2 ≤ getTodayGenerations today u) := by
    rcases hq with h | h
    · simp [h]
    · rintro ⟨_, h2⟩; omega
  unfold editImageCtrl
  simp only []
  rw [if_neg hqn]
  unfold svcEdit
  rw [hkey]
  simp only []
  rw [hprov]
  simp only []
  rw [if_neg (by simpa [List.isEmpty_iff] using hne)]

/-- The persisted pair always refers to the image it was given: the URL is
absent or the upload result, the inline data absent or that image. -/
theorem persistImage_cases (cloud : Bool) (upload : String → Option String)
    (image : String) :
    ((persistImage cloud upload image).1 = none ∨
      (persistImage cloud upload image).1 = upload image) ∧
    ((persistImage cloud upload image).2 = none ∨
      (persistImage cloud upload image).2 = some image) := by
  unfold persistImage
  by_cases hc : cloud
  · cases hu : upload image <;> simp [hc, hu]
  · simp [hc]

/-! ## Claim theorems -/

/-- C4: a free-tier user whose last generation day is strictly before
today with a stored daily count of 2 passes the limit check (the stale
count reads as 0); one incrementGeneration then stores a daily count of 1
stamped today, while a user whose last generation day is already today
gets the stored count increased by 1. -/
theorem stale_daily_count_rollover (u : User) (today d : Nat)
    (hkey : u.hasApiKey = false) (hdate : u.lastGenerationDate = some d)
    (hlt : d < today) (hcount : u.dailyGenerationCount = 2) :
    getTodayGenerations today u = 0 ∧
    (checkCanGenerate today u).1 = true ∧
    ¬ 2 ≤ getTodayGenerations today u ∧
    (incrementGeneration today u).dailyGenerationCount = 1 ∧
    (incrementGeneration today u).lastGenerationDate = some today ∧
    ∀ v : User, v.lastGenerationDate = some today →
      (incrementGeneration today v).dailyGenerationCount =
        v.dailyGenerationCount + 1 := by
  have hne : d ≠ today := Nat.ne_of_lt hlt
  have htoday : getTodayGenerations today u = 0 := by
    simp [getTodayGenerations, hdate, hne]
  refine ⟨htoday, ?_, by simp [htoday], ?_, ?_, ?_⟩
  · simp [checkCanGenerate, hkey, htoday]
  · simp [incrementGeneration, hdate, hne]
  · simp [incrementGeneration]
  · intro v hv
    simp [incrementGeneration, hv]

/-- C4 witness: concrete free-tier user, last generation on day 0 with
count 2, checked on day 1. -/
theorem stale_daily_count_rollover_witness :
    getTodayGenerations 1 ⟨"a0", "e", none, false, 7, 2, some 0⟩ = 0 ∧
    (checkCanGenerate 1 ⟨"a0", "e", none, false, 7, 2, some 0⟩).1 = true ∧
    ¬ 2 ≤ getTodayGenerations 1 ⟨"a0", "e", none, false, 7, 2, some 0⟩ ∧
    (incrementGeneration 1
      ⟨"a0", "e", none, false, 7, 2, some 0⟩).dailyGenerationCount = 1 ∧
    (incrementGeneration 1
      ⟨"a0", "e", none, false, 7, 2, some 0⟩).lastGenerationDate = some 1 ∧
    ∀ v : User, v.lastGenerationDate = some 1 →
      (incrementGeneration 1 v).dailyGenerationCount =
        v.dailyGenerationCount + 1 :=
  stale_daily_count_rollover ⟨"a0", "e", none, false, 7, 2, some 0⟩ 1 0
    rfl rfl (by decide) rfl

/-- C5 counterexample: the demotion performed during the limit check
clears only the flag, so afterwards hasApiKey is false while the stored
(undecryptable) credential is still present — the claimed iff fails. -/
theorem demotion_leaves_stored_credential :
    ¬ ((checkCanGenerate 0 uDemo).2.hasApiKey = true ↔
      (checkCanGenerate 0 uDemo).2.geminiApiKey ≠ none) := by
  decide

/-- C5 amended: set and remove establish the flag-credential iff and
incrementGeneration preserves it, but the limit-check demotion only
guarantees the forward direction — when the flag ends up true the
credential is present, while a cleared flag may leave an undecryptable
credential stored. -/
theorem hasApiKey_flag_consistency (u : User) (k : String) (today : Nat) :
    ((setApiKey k u).hasApiKey = true ↔ (setApiKey k u).geminiApiKey ≠ none) ∧
    ((removeApiKey u).hasApiKey = true ↔
      (removeApiKey u).geminiApiKey ≠ none) ∧
    ((u.hasApiKey = true ↔ u.geminiApiKey ≠ none) →
      ((incrementGeneration today u).hasApiKey = true ↔
        (incrementGeneration today u).geminiApiKey ≠ none)) ∧
    ((checkCanGenerate today u).2.hasApiKey = true →
      (checkCanGenerate today u).2.geminiApiKey ≠ none) := by
  refine ⟨by simp [setApiKey], by simp [removeApiKey], ?_, ?_⟩
  · intro h
    simpa [incrementGeneration] using h
  · unfold checkCanGenerate
    by_cases hk : u.hasApiKey
    · rcases hc : u.geminiApiKey with _ | c
      · simp [getDecryptedApiKey, hk, hc]
      · cases c with
        | malformed => simp [getDecryptedApiKey, hk, hc]
        | enc p =>
          by_cases ht : jsTrim p = ""
          · simp [getDecryptedApiKey, hk, hc, ht]
          · simp only [getDecryptedApiKey, hk, hc, ht, ne_eq,
              not_false_eq_true, if_true]
            intro _
            simp [hc]
    · simp [hk]

/-- C5 witness: the increment clause applied to a consistent user and the
demotion clause applied to a user with a valid key. -/
theorem hasApiKey_flag_consistency_witness :
    ((incrementGeneration 4
        ⟨"a0", "e", some (.enc "K"), true, 1, 1, some 3⟩).hasApiKey = true ↔
      (incrementGeneration 4
        ⟨"a0", "e", some (.enc "K"), true, 1, 1, some 3⟩).geminiApiKey ≠
        none) ∧
    ((checkCanGenerate 4
        ⟨"a0", "e", some (.enc "K"), true, 1, 1, some 3⟩).2.hasApiKey =
        true →
      (checkCanGenerate 4
        ⟨"a0", "e", some (.enc "K"), true, 1, 1, some 3⟩).2.geminiApiKey ≠
        none) :=
  ⟨(hasApiKey_flag_consistency ⟨"a0", "e", some (.enc "K"), true, 1, 1,
      some 3⟩ "K2" 4).2.2.1 (by decide),
   (hasApiKey_flag_consistency ⟨"a0", "e", some (.enc "K"), true, 1, 1,
      some 3⟩ "K2" 4).2.2.2⟩

/-- C6 counterexample: on an image whose only content is the single
center pixel, a pixel below the threshold exists, the box is nonempty in
the claimed strict sense, and the border percentage is well above 1, yet
the border-trim step returns the input unmodified (the code skips whenever
minX is greater than OR EQUAL to maxX), instead of producing the crop. -/
theorem single_pixel_content_not_cropped :
    anyPixelBelow raw3 240 = true ∧
    ¬ ((scanBounds raw3 240).maxX < (scanBounds raw3 240).minX ∨
      (scanBounds raw3 240).maxY < (scanBounds raw3 240).minY) ∧
    borderMinimal raw3 (scanBounds raw3 240) = false ∧
    removeWhiteBorders (fun _ => some raw3) (fun _ _ _ _ _ => some "CROPPED")
      240 "ORIG" = "ORIG" ∧
    "ORIG" ≠ "CROPPED" := by
  decide

/-- C6 amended: with a successful decode, the border-trim step returns the
input unchanged when no pixel is below the threshold, when the detected
box is empty or a single row or column (maxX at most minX, or maxY at most
minY), or when the border percentage is below 1; otherwise it returns the
encoder output on the inclusive bounding box (falling back to the input if
the encoder fails). -/
theorem border_trim_characterization
    (decode : String → Option RawImage)
    (encodeCrop : String → Nat → Nat → Nat → Nat → Option String)
    (threshold : Nat) (img : String) (raw : RawImage)
    (hdec : decode img = some raw) :
    (anyPixelBelow raw threshold = false →
      removeWhiteBorders decode encodeCrop threshold img = img) ∧
    ((scanBounds raw threshold).maxX ≤ (scanBounds raw threshold).minX ∨
      (scanBounds raw threshold).maxY ≤ (scanBounds raw threshold).minY →
      removeWhiteBorders decode encodeCrop threshold img = img) ∧
    ((scanBounds raw threshold).minX < (scanBounds raw threshold).maxX →
      (scanBounds raw threshold).minY < (scanBounds raw threshold).maxY →
      borderMinimal raw (scanBounds raw threshold) = true →
      removeWhiteBorders decode encodeCrop threshold img = img) ∧
    ((scanBounds raw threshold).minX < (scanBounds raw threshold).maxX →
      (scanBounds raw threshold).minY < (scanBounds raw threshold).maxY →
      borderMinimal raw (scanBounds raw threshold) = false →
      removeWhiteBorders decode encodeCrop threshold img =
        match encodeCrop img (scanBounds raw threshold).minX
            (scanBounds raw threshold).minY
            ((scanBounds raw threshold).maxX -
              (scanBounds raw threshold).minX + 1)
            ((scanBounds raw threshold).maxY -
              (scanBounds raw threshold).minY + 1) with
        | none => img
        | some cropped => cropped) := by
  refine ⟨?_, ?_, ?_, ?_⟩
  · intro hnone
    unfold removeWhiteBorders
    rw [hdec]
    simp only [scanBounds_of_noDark raw threshold hnone]
    rw [if_pos (Or.inl (Nat.zero_le _))]
  · intro hskip
    unfold removeWhiteBorders
    rw [hdec]
    simp only [if_pos hskip]
  · intro hx hy hmin
    have hns : ¬ ((scanBounds raw threshold).maxX ≤
        (scanBounds raw threshold).minX ∨
        (scanBounds raw threshold).maxY ≤ (scanBounds raw threshold).minY) := by
      push_neg
      exact ⟨hx, hy⟩
    simp only [removeWhiteBorders, hdec]
    rw [if_neg hns, if_pos hmin]
  · intro hx hy hmin
    have hns : ¬ ((scanBounds raw threshold).maxX ≤
        (scanBounds raw threshold).minX ∨
        (scanBounds raw threshold).maxY ≤ (scanBounds raw threshold).minY) := by
      push_neg
      exact ⟨hx, hy⟩
    simp only [removeWhiteBorders, hdec]
    rw [if_neg hns, if_neg (by simp [hmin])]

/-- C6 witness: a genuine 2 by 2 content block is cropped via the encoder
while the decode hypothesis is discharged on a concrete decode. -/
theorem border_trim_characterization_witness :
    removeWhiteBorders (fun _ => some raw4)
      (fun _ _ _ _ _ => some "CROPPED") 240 "ORIG" = "CROPPED" :=
  (border_trim_characterization (fun _ => some raw4)
    (fun _ _ _ _ _ => some "CROPPED") 240 "ORIG" raw4 rfl).2.2.2
    (by decide) (by decide) (by decide)

/-- C7: any decode failure and any encode failure in the border-trim step
returns the original bytes, a resize failure in dimension enforcement
returns the original bytes, and the service pipeline succeeds with one
processed image per provider image for every choice of (possibly failing)
sharp decode, crop and resize functions — post-processing can never fail a
successful generation. -/
theorem post_processing_best_effort :
    (∀ (decode : String → Option RawImage)
        (encodeCrop : String → Nat → Nat → Nat → Nat → Option String)
        (threshold : Nat) (img : String),
      decode img = none →
      removeWhiteBorders decode encodeCrop threshold img = img) ∧
    (∀ (decode : String → Option RawImage)
        (encodeCrop : String → Nat → Nat → Nat → Nat → Option String)
        (threshold : Nat) (img : String),
      (∀ s a b c d, encodeCrop s a b c d = none) →
      removeWhiteBorders decode encodeCrop threshold img = img) ∧
    (∀ (resize : String → Nat → Nat → Option String) (img : String)
        (w h : Nat),
      resize img w h = none → ensureDimensions resize img w h = img) ∧
    (∀ (defaultApiKey : Option String)
        (provider : String → UsedKey → ProviderOutcome)
        (decode : String → Option RawImage)
        (encodeCrop : String → Nat → Nat → Nat → Nat → Option String)
        (resize : String → Nat → Nat → Option String)
        (prompt : String) (s : Settings) (customApiKey : Option String)
        (key : UsedKey) (imgs : List String),
      getGenAI defaultApiKey customApiKey = .ok key →
      provider (enhancePrompt prompt s) key = .ok imgs →
      imgs ≠ [] →
      (svcGenerate defaultApiKey provider decode encodeCrop resize prompt s
          customApiKey).1 =
        .ok (imgs.map (postProcess decode encodeCrop resize s))) := by
  refine ⟨?_, ?_, ?_, ?_⟩
  · intro decode encodeCrop threshold img hdec
    unfold removeWhiteBorders
    rw [hdec]
  · intro decode encodeCrop threshold img henc
    unfold removeWhiteBorders
    cases hdec : decode img with
    | none => rfl
    | some raw =>
      simp only []
      split
      · rfl
      · split
        · rfl
        · rw [henc]
  · intro resize img w h hrz
    unfold ensureDimensions
    rw [hrz]
  · intro defaultApiKey provider decode encodeCrop resize prompt s
      customApiKey key imgs hgen hprov hne
    unfold svcGenerate
    rw [hgen]
    simp only [hprov]
    rw [if_neg (by simpa [List.isEmpty_iff] using hne)]

/-- C7 witness: a failing decode, a failing encoder on a crop case, a
failing resize, and a full service run whose sharp layer always fails,
still succeeding with the original image. -/
theorem post_processing_best_effort_witness :
    removeWhiteBorders (fun _ => none) (fun _ _ _ _ _ => some "X") 240
      "ORIG" = "ORIG" ∧
    removeWhiteBorders (fun _ => some raw4) (fun _ _ _ _ _ => none) 240
      "ORIG" = "ORIG" ∧
    ensureDimensions (fun _ _ _ => none) "ORIG" 32 32 = "ORIG" ∧
    (svcGenerate (some "D") (fun _ _ => .ok ["i1", "i2"]) (fun _ => none)
        (fun _ _ _ _ _ => none) (fun _ _ _ => none) "p" {} none).1 =
      .ok ["i1", "i2"] :=
  ⟨post_processing_best_effort.1 (fun _ => none) (fun _ _ _ _ _ => some "X")
      240 "ORIG" rfl,
   post_processing_best_effort.2.1 (fun _ => some raw4)
      (fun _ _ _ _ _ => none) 240 "ORIG" (fun _ _ _ _ _ => rfl),
   post_processing_best_effort.2.2.1 (fun _ _ _ => none) "ORIG" 32 32 rfl,
   post_processing_best_effort.2.2.2 (some "D") (fun _ _ => .ok ["i1", "i2"])
      (fun _ => none) (fun _ _ _ _ _ => none) (fun _ _ _ => none) "p" {}
      none .sharedDefault ["i1", "i2"] rfl rfl (by decide)⟩

/-- C8: when width and height are both supplied (positive), the composed
prompt contains the ratio string reduced by the greatest common divisor;
the three sample reductions come out as claimed; each of the six
recognized ratios carries a nonempty human label and every other ratio
string is left unlabeled. -/
theorem ratio_simplification_and_labels (prompt : String) (w h : Nat)
    (t? : Option ℚ) (seed? : Option Nat) (hw : 0 < w) (hh : 0 < h) :
    strContains
      (enhancePrompt prompt
        { width := some w, height := some h, temperature := t?,
          seed := seed? })
      (toString (w / Nat.gcd w h) ++ ":" ++ toString (h / Nat.gcd w h)) ∧
    ratioOf 1920 1080 = "16:9" ∧
    ratioOf 1080 1920 = "9:16" ∧
    ratioOf 1000 1000 = "1:1" ∧
    ratioFormat "16:9" ≠ "" ∧ ratioFormat "9:16" ≠ "" ∧
    ratioFormat "4:3" ≠ "" ∧ ratioFormat "3:4" ≠ "" ∧
    ratioFormat "21:9" ≠ "" ∧ ratioFormat "1:1" ≠ "" ∧
    ∀ r : String, r ≠ "16:9" → r ≠ "9:16" → r ≠ "4:3" → r ≠ "3:4" →
      r ≠ "21:9" → r ≠ "1:1" → ratioFormat r = "" := by
  refine ⟨?_, ?_, ?_, ?_, by decide, by decide, by decide, by decide,
    by decide, by decide, ?_⟩
  · rw [← ratioOf_eq]
    unfold enhancePrompt
    simp only []
    rw [if_pos ⟨Nat.pos_iff_ne_zero.mp hw, Nat.pos_iff_ne_zero.mp hh⟩]
    repeat first
      | exact strContains_left _ (strContains_self _)
      | apply strContains_right
  · rw [ratioOf_eq]; decide
  · rw [ratioOf_eq]; decide
  · rw [ratioOf_eq]; decide
  · intro r h1 h2 h3 h4 h5 h6
    unfold ratioFormat
    rw [if_neg h1, if_neg h2, if_neg h3, if_neg h4, if_neg h5, if_neg h6]

/-- C8 witness: the 1024 by 1024 prompt contains the reduced ratio
string. -/
theorem ratio_simplification_and_labels_witness :
    strContains
      (enhancePrompt "sunset"
        { width := some 1024, height := some 1024, temperature := none,
          seed := none })
      (toString (1024 / Nat.gcd 1024 1024) ++ ":" ++
        toString (1024 / Nat.gcd 1024 1024)) :=
  (ratio_simplification_and_labels "sunset" 1024 1024 none none
    (by decide) (by decide)).1

/-- C9: the daily reset maps every user through resetUser; a user with an
own credential is returned unchanged in every field, a user without one
gets daily count 0 and a cleared date with all other fields untouched, and
running the reset twice equals running it once. -/
theorem resetAll_scope_and_idempotence (users : List User) (u : User) :
    resetAll users = users.map resetUser ∧
    (u.hasApiKey = true → resetUser u = u) ∧
    (u.hasApiKey = false →
      resetUser u =
        { u with dailyGenerationCount := 0, lastGenerationDate := none }) ∧
    resetAll (resetAll users) = resetAll users := by
  refine ⟨rfl, ?_, ?_, ?_⟩
  · intro h; simp [resetUser, h]
  · intro h; simp [resetUser, h]
  · unfold resetAll
    rw [List.map_map]
    apply List.map_congr_left
    intro a _
    by_cases h : a.hasApiKey <;> simp [resetUser, h]

/-- C9 witness: a two-user collection, one with an own credential and one
without. -/
theorem resetAll_scope_and_idempotence_witness :
    resetUser ⟨"a1", "e1", some (.enc "K"), true, 9, 2, some 5⟩ =
      ⟨"a1", "e1", some (.enc "K"), true, 9, 2, some 5⟩ ∧
    resetUser ⟨"a2", "e2", none, false, 9, 2, some 5⟩ =
      ⟨"a2", "e2", none, false, 9, 0, none⟩ ∧
    resetAll (resetAll [⟨"a1", "e1", some (.enc "K"), true, 9, 2, some 5⟩,
        ⟨"a2", "e2", none, false, 9, 2, some 5⟩]) =
      resetAll [⟨"a1", "e1", some (.enc "K"), true, 9, 2, some 5⟩,
        ⟨"a2", "e2", none, false, 9, 2, some 5⟩] :=
  ⟨(resetAll_scope_and_idempotence []
      ⟨"a1", "e1", some (.enc "K"), true, 9, 2, some 5⟩).2.1 rfl,
   (resetAll_scope_and_idempotence []
      ⟨"a2", "e2", none, false, 9, 2, some 5⟩).2.2.1 rfl,
   (resetAll_scope_and_idempotence
      [⟨"a1", "e1", some (.enc "K"), true, 9, 2, some 5⟩,
       ⟨"a2", "e2", none, false, 9, 2, some 5⟩]
      ⟨"a1", "e1", some (.enc "K"), true, 9, 2, some 5⟩).2.2.2⟩

/-- C1 counterexample: a user holding an own credential completes a
generation successfully, yet the returned user state is entirely
unchanged — the lifetime counter stays at 5 instead of being incremented
to 6 as the claim demands for every successful generation. -/
theorem lifetime_count_not_incremented_for_own_key :
    (generateImageCtrl (some "D") (fun _ _ => .ok ["i1"]) (fun _ => none)
        (fun _ _ _ _ _ => none) (fun _ _ _ => none) false (fun _ => none)
        0 "p" {} (some uOwn)).result =
      .completed ["i1"] ⟨"p", none, some "i1", false, "completed"⟩ ∧
    (generateImageCtrl (some "D") (fun _ _ => .ok ["i1"]) (fun _ => none)
        (fun _ _ _ _ _ => none) (fun _ _ _ => none) false (fun _ => none)
        0 "p" {} (some uOwn)).user = some uOwn ∧
    uOwn.generationCount = 5 := by
  decide

/-- C1 amended: on every successful generate or edit request the lifetime
counter is incremented by exactly 1 when the user does not hold an own
credential, and left unchanged when the user does (the controllers call
incrementGeneration only for shared-key users). -/
theorem lifetime_count_incremented_only_for_shared
    (defaultApiKey : Option String)
    (provider : String → UsedKey → ProviderOutcome)
    (decode : String → Option RawImage)
    (crop : String → Nat → Nat → Nat → Nat → Option String)
    (resize : String → Nat → Nat → Option String)
    (cloud : Bool) (upload : String → Option String)
    (today : Nat) (prompt : String) (s : Settings) (u : User)
    (key : UsedKey) (l : List String)
    (hedit : s.isEdit = false)
    (hq : u.hasApiKey = true ∨ getTodayGenerations today u < 2)
    (hkey : getGenAI defaultApiKey
      (if u.hasApiKey then getDecryptedApiKey u.geminiApiKey else none) =
      .ok key)
    (hprov : provider (enhancePrompt prompt s) key = .ok l)
    (hne : l ≠ []) :
    Option.map User.generationCount
      (generateImageCtrl defaultApiKey provider decode crop resize cloud
        upload today prompt s (some u)).user =
      some (u.generationCount + if u.hasApiKey then 0 else 1) ∧
    ∀ (instruction : String) (maskImage : Option String)
      (referenceImages : List String) (temperature : Option ℚ)
      (seed : Option Nat) (key2 : UsedKey) (l2 : List String),
      getGenAI defaultApiKey
        (if u.hasApiKey then getDecryptedApiKey u.geminiApiKey else none) =
        .ok key2 →
      provider
        (buildEditPrompt instruction
          { maskImage := maskImage, referenceImages := referenceImages,
            temperature := temperature, seed := seed }) key2 = .ok l2 →
      l2 ≠ [] →
      Option.map User.generationCount
        (editImageCtrl defaultApiKey provider decode crop resize cloud
          upload today instruction maskImage referenceImages temperature
          seed (some u)).user =
        some (u.generationCount + if u.hasApiKey then 0 else 1) := by
  constructor
  · rw [generateImageCtrl_success_spec defaultApiKey provider decode crop
      resize cloud upload today prompt s u key l hedit hq hkey hprov hne]
    by_cases hk : u.hasApiKey <;> simp [hk, incrementGeneration]
  · intro instruction maskImage referenceImages temperature seed key2 l2
      hkey2 hprov2 hne2
    rw [editImageCtrl_success_spec defaultApiKey provider decode crop
      resize cloud upload today instruction maskImage referenceImages
      temperature seed u key2 l2 hq hkey2 hprov2 hne2]
    by_cases hk : u.hasApiKey <;> simp [hk, incrementGeneration]

/-- C1 witness: a free-tier user with lifetime count 5 ends at 6 after a
successful shared-key generation. -/
theorem lifetime_count_incremented_only_for_shared_witness :
    Option.map User.generationCount
      (generateImageCtrl (some "D") (fun _ _ => .ok ["i1"]) (fun _ => none)
        (fun _ _ _ _ _ => none) (fun _ _ _ => none) false (fun _ => none)
        0 "p" {} (some uFree)).user = some 6 :=
  (lifetime_count_incremented_only_for_shared (some "D")
    (fun _ _ => .ok ["i1"]) (fun _ => none) (fun _ _ _ _ _ => none)
    (fun _ _ _ => none) false (fun _ => none) 0 "p" {} uFree
    .sharedDefault ["i1"] rfl (Or.inr (by decide)) rfl rfl
    (by decide)).1

/-- C2: a user whose stored credential is malformed ciphertext (decryption
returns null) completes a generate request using the SHARED default key:
the provider is called with the shared key, the request succeeds, the
stored credential is not cleared and the flag stays true, and no
invalid-credential error is surfaced — contradicting the documented
clear-and-report rule and the code comment that rate limiting is enforced
before the default key is used. -/
theorem undecryptable_key_silently_uses_shared_default :
    getDecryptedApiKey uDemo.geminiApiKey = none ∧
    uDemo.hasApiKey = true ∧
    generateImageCtrl (some "DEFAULT") (fun _ _ => .ok ["i1"])
        (fun _ => none) (fun _ _ _ _ _ => none) (fun _ _ _ => none) false
        (fun _ => none) 0 "p" {} (some uDemo) =
      ⟨.completed ["i1"] ⟨"p", none, some "i1", false, "completed"⟩,
        some uDemo, some .sharedDefault⟩ := by
  decide

/-- C3 counterexample: a stored free-tier user whose daily count already
reached 2 today still gets a segment request executed — the provider is
called with the shared default key and the request succeeds, instead of
failing with QuotaExceeded before any provider call. -/
theorem segment_request_bypasses_quota :
    uLim.hasApiKey = false ∧
    getTodayGenerations 0 uLim = 2 ∧
    segmentImageCtrl (some "DEFAULT") (fun _ => .text true) (some uLim) =
      (.ok, some uLim, some .sharedDefault) := by
  decide

/-- C3 amended: for generate and edit requests the daily-limit check comes
first — a free-tier user at the limit gets QuotaExceeded with no provider
call; segment requests carry no quota check at all and always reach the
provider (with the shared default key for free-tier users). -/
theorem quota_check_generate_edit_only
    (defaultApiKey : Option String)
    (provider : String → UsedKey → ProviderOutcome)
    (decode : String → Option RawImage)
    (crop : String → Nat → Nat → Nat → Nat → Option String)
    (resize : String → Nat → Nat → Option String)
    (cloud : Bool) (upload : String → Option String)
    (today : Nat) (prompt : String) (s : Settings) (u : User)
    (hk : u.hasApiKey = false)
    (hq : 2 ≤ getTodayGenerations today u) :
    generateImageCtrl defaultApiKey provider decode crop resize cloud
      upload today prompt s (some u) = ⟨.quotaExceeded, some u, none⟩ ∧
    (∀ (instruction : String) (maskImage : Option String)
       (referenceImages : List String) (temperature : Option ℚ)
       (seed : Option Nat),
      editImageCtrl defaultApiKey provider decode crop resize cloud upload
        today instruction maskImage referenceImages temperature seed
        (some u) = ⟨.quotaExceeded, some u, none⟩) ∧
    ∀ (d : String) (sprovider : UsedKey → SegOutcome),
      (segmentImageCtrl (some d) sprovider (some u)).2.2 =
        some .sharedDefault := by
  refine ⟨?_, ?_, ?_⟩
  · unfold generateImageCtrl
    simp only []
    rw [if_pos ⟨hk, hq⟩]
  · intro instruction maskImage referenceImages temperature seed
    unfold editImageCtrl
    simp only []
    rw [if_pos ⟨hk, hq⟩]
  · intro d sprovider
    unfold segmentImageCtrl svcSegment
    simp only [hk]
    cases hsp : sprovider .sharedDefault with
    | text b => cases b <;> simp [getGenAI, hsp]
    | invalidKey => simp [getGenAI, hsp]
    | failure b => simp [getGenAI, hsp]

/-- C3 witness: the limited user uLim is rejected on generate without a
provider call. -/
theorem quota_check_generate_edit_only_witness :
    generateImageCtrl (some "D") (fun _ _ => .ok ["i1"]) (fun _ => none)
      (fun _ _ _ _ _ => none) (fun _ _ _ => none) false (fun _ => none)
      0 "p" {} (some uLim) = ⟨.quotaExceeded, some uLim, none⟩ :=
  (quota_check_generate_edit_only (some "D") (fun _ _ => .ok ["i1"])
    (fun _ => none) (fun _ _ _ _ _ => none) (fun _ _ _ => none) false
    (fun _ => none) 0 "p" {} uLim rfl (by decide)).1

/-- C10: when the provider returns more than one image, the response
carries all of the (post-processed) images while the persisted record is
built from the first one only — its URL field is absent or the upload of
the first image, its inline field absent or the first image itself — for
generate as well as edit requests. -/
theorem only_first_image_persisted
    (defaultApiKey : Option String)
    (provider : String → UsedKey → ProviderOutcome)
    (decode : String → Option RawImage)
    (crop : String → Nat → Nat → Nat → Nat → Option String)
    (resize : String → Nat → Nat → Option String)
    (cloud : Bool) (upload : String → Option String)
    (today : Nat) (prompt : String) (s : Settings) (u : User)
    (key : UsedKey) (l : List String)
    (hedit : s.isEdit = false)
    (hq : u.hasApiKey = true ∨ getTodayGenerations today u < 2)
    (hkey : getGenAI defaultApiKey
      (if u.hasApiKey then getDecryptedApiKey u.geminiApiKey else none) =
      .ok key)
    (hprov : provider (enhancePrompt prompt s) key = .ok l)
    (hlen : 1 < l.length) :
    (generateImageCtrl defaultApiKey provider decode crop resize cloud
        upload today prompt s (some u)).result =
      .completed (l.map (postProcess decode crop resize s))
        ⟨prompt,
          (persistImage cloud upload
            ((l.map (postProcess decode crop resize s)).headD "")).1,
          (persistImage cloud upload
            ((l.map (postProcess decode crop resize s)).headD "")).2,
          s.isEdit, "completed"⟩ ∧
    ((persistImage cloud upload
        ((l.map (postProcess decode crop resize s)).headD "")).1 = none ∨
      (persistImage cloud upload
        ((l.map (postProcess decode crop resize s)).headD "")).1 =
        upload ((l.map (postProcess decode crop resize s)).headD "")) ∧
    ((persistImage cloud upload
        ((l.map (postProcess decode crop resize s)).headD "")).2 = none ∨
      (persistImage cloud upload
        ((l.map (postProcess decode crop resize s)).headD "")).2 =
        some ((l.map (postProcess decode crop resize s)).headD "")) ∧
    ∀ (instruction : String) (maskImage : Option String)
      (referenceImages : List String) (temperature : Option ℚ)
      (seed : Option Nat) (key2 : UsedKey) (l2 : List String),
      getGenAI defaultApiKey
        (if u.hasApiKey then getDecryptedApiKey u.geminiApiKey else none) =
        .ok key2 →
      provider
        (buildEditPrompt instruction
          { maskImage := maskImage, referenceImages := referenceImages,
            temperature := temperature, seed := seed }) key2 = .ok l2 →
      1 < l2.length →
      (editImageCtrl defaultApiKey provider decode crop resize cloud
          upload today instruction maskImage referenceImages temperature
          seed (some u)).result =
        .completed
          (l2.map (postProcess decode crop resize
            { maskImage := maskImage, referenceImages := referenceImages,
              temperature := temperature, seed := seed }))
          ⟨instruction,
            (persistImage cloud upload
              ((l2.map (postProcess decode crop resize
                { maskImage := maskImage,
                  referenceImages := referenceImages,
                  temperature := temperature, seed := seed })).headD "")).1,
            (persistImage cloud upload
              ((l2.map (postProcess decode crop resize
                { maskImage := maskImage,
                  referenceImages := referenceImages,
                  temperature := temperature, seed := seed })).headD "")).2,
            true, "completed"⟩ := by
  have hne : l ≠ [] := by
    intro hnil
    rw [hnil] at hlen
    simp at hlen
  refine ⟨?_, (persistImage_cases cloud upload _).1,
    (persistImage_cases cloud upload _).2, ?_⟩
  · rw [generateImageCtrl_success_spec defaultApiKey provider decode crop
      resize cloud upload today prompt s u key l hedit hq hkey hprov hne]
  · intro instruction maskImage referenceImages temperature seed key2 l2
      hkey2 hprov2 hlen2
    have hne2 : l2 ≠ [] := by
      intro hnil
      rw [hnil] at hlen2
      simp at hlen2
    rw [editImageCtrl_success_spec defaultApiKey provider decode crop
      resize cloud upload today instruction maskImage referenceImages
      temperature seed u key2 l2 hq hkey2 hprov2 hne2]

/-- C10 witness: a two-image provider result on a generate request by the
free-tier user — the response holds both images while the record inlines
only the first. -/
theorem only_first_image_persisted_witness :
    (generateImageCtrl (some "D") (fun _ _ => .ok ["i1", "i2"])
        (fun _ => none) (fun _ _ _ _ _ => none) (fun _ _ _ => none) false
        (fun _ => none) 0 "p" {} (some uFree)).result =
      .completed ["i1", "i2"] ⟨"p", none, some "i1", false, "completed"⟩ :=
  (only_first_image_persisted (some "D") (fun _ _ => .ok ["i1", "i2"])
    (fun _ => none) (fun _ _ _ _ _ => none) (fun _ _ _ => none) false
    (fun _ => none) 0 "p" {} uFree .sharedDefault ["i1", "i2"] rfl
    (Or.inr (by decide)) rfl rfl (by decide)).1

end Codenex
